import Mathlib

/-!
Verification of the iohub sources against their specification.

Part 1 embeds `iohub/multipagetiff_v2.py` (the `MicromanagerOmeTiffReader`
coordinate index): the page/coordinate data model, `_gather_index_maps`
(both the `coord_map` dictionary and the running dataset extents), the
dictionary lookup performed by `_get_image`, and `_get_dimensions`.

Part 2 embeds the relevant operations of `iohub/ngff.py`: `_pad_shape`,
`Position._find_axis`, `Position.append_channel`, `Plate._auto_idx`,
`Plate.create_well`, the `_parse_meta` methods of `Position`/`Well`/`Plate`,
the mode/layout resolution of `open_ome_zarr`, and the reference-passing of
`channel_names` in `NGFFNode._child_attrs`.
-/

/-- An acquisition coordinate `(position, time/frame, channel, slice)`,
exactly the 4-tuple built at `multipagetiff_v2.py:84-88`. -/
abbrev Coord := Nat × Nat × Nat × Nat

/-- One page record of a container file's `IndexMap`: the per-page
`Position`/`Frame`/`Channel`/`Slice` metadata plus the byte offset that
`_get_byte_offset` extracts from the page's strip-offset tag.  The page
parser (`tifffile`) is an external collaborator, so its output is taken as
given data. -/
structure PageMeta where
  position : Nat
  frame : Nat
  channel : Nat
  slice : Nat
  offset : Nat
deriving DecidableEq

/-- A container file: its path and the sequence of page records decoded
from its `IndexMap` (`multipagetiff_v2.py:79-83`). -/
structure MMFile where
  path : String
  pages : List PageMeta
deriving DecidableEq

/-- The value stored in `coord_map`: `(file, page, byte_offset)`
(`multipagetiff_v2.py:90`). -/
structure IndexEntry where
  file : String
  page : Nat
  offset : Nat
deriving DecidableEq

/-- The coordinate tuple assembled at `multipagetiff_v2.py:84-88`:
`coord[0] = Position`, `coord[1] = Frame`, `coord[2] = Channel`,
`coord[3] = Slice`. -/
def pageCoord (pg : PageMeta) : Coord := (pg.position, pg.frame, pg.channel, pg.slice)

/-- The `(coord, entry)` pairs contributed by one file, in page order:
`page` ranges over `range(len(meta['Channel']))` and the entry is
`(file, page, offset)` (`multipagetiff_v2.py:83-90`). -/
def pageEntries (path : String) : Nat → List PageMeta → List (Coord × IndexEntry)
  | _, [] => []
  | i, pg :: rest => (pageCoord pg, ⟨path, i, pg.offset⟩) :: pageEntries path (i + 1) rest

/-- All `(coord, entry)` pairs over all files, in the order the double loop
of `_gather_index_maps` visits them. -/
def allEntries : List MMFile → List (Coord × IndexEntry)
  | [] => []
  | f :: rest => pageEntries f.path 0 f.pages ++ allEntries rest

/-- One Python dictionary assignment `self.coord_map[tuple(coord)] = entry`:
the updated map answers the new entry at the new key and defers to the old
map elsewhere (later writes win, as in a Python dict). -/
def insertEntry (m : Coord → Option IndexEntry) (ce : Coord × IndexEntry) :
    Coord → Option IndexEntry :=
  fun c => if c = ce.1 then some ce.2 else m c

/-- The `coord_map` built by `_gather_index_maps`
(`multipagetiff_v2.py:79-90`), starting from the empty dict set up in
`__init__`. -/
def buildCoordMap (files : List MMFile) : Coord → Option IndexEntry :=
  (allEntries files).foldl insertEntry (fun _ => none)

/-- The dictionary lookup `self.coord_map[coord_key]` performed by
`_get_image` (`multipagetiff_v2.py:286-289`); `none` models the raised
key-not-found error on an absent coordinate. -/
def lookupCoord (files : List MMFile) (c : Coord) : Option IndexEntry :=
  buildCoordMap files c

/-- The entry a Python dict ends up storing for key `c` after inserting
the pairs of `l` in order: the value of the *last* pair whose key is `c`. -/
def lastMatchEntry : List (Coord × IndexEntry) → Coord → Option IndexEntry
  | [], _ => none
  | ce :: rest, c =>
    match lastMatchEntry rest c with
    | some e => some e
    | none => if c = ce.1 then some ce.2 else none

lemma foldl_insertEntry (l : List (Coord × IndexEntry)) (m : Coord → Option IndexEntry)
    (c : Coord) :
    l.foldl insertEntry m c =
      match lastMatchEntry l c with
      | some e => some e
      | none => m c := by
  induction l generalizing m with
  | nil => simp [lastMatchEntry]
  | cons a l ih =>
    rw [List.foldl_cons, ih]
    cases h : lastMatchEntry l c with
    | some e => simp [lastMatchEntry, h]
    | none =>
      simp only [lastMatchEntry, h, insertEntry]
      by_cases hc : c = a.1 <;> simp [hc]

lemma lastMatchEntry_eq_none (l : List (Coord × IndexEntry)) (c : Coord)
    (h : ∀ ce ∈ l, ce.1 ≠ c) : lastMatchEntry l c = none := by
  induction l with
  | nil => rfl
  | cons a l ih =>
    have ha : a.1 ≠ c := h a (by simp)
    have hrest := ih (fun ce hce => h ce (by simp [hce]))
    simp [lastMatchEntry, hrest]
    intro hc
    exact absurd hc.symm ha

lemma lastMatchEntry_isSome (l : List (Coord × IndexEntry)) (c : Coord)
    (h : ∃ ce ∈ l, ce.1 = c) : ∃ e, lastMatchEntry l c = some e := by
  induction l with
  | nil => simp at h
  | cons a l ih =>
    cases hrest : lastMatchEntry l c with
    | some e => exact ⟨e, by simp [lastMatchEntry, hrest]⟩
    | none =>
      rcases h with ⟨ce, hce, hc⟩
      rcases List.mem_cons.mp hce with h1 | h2
      · subst h1
        refine ⟨ce.2, ?_⟩
        simp [lastMatchEntry, hrest, hc]
      · rcases ih ⟨ce, h2, hc⟩ with ⟨e, he⟩
        rw [hrest] at he
        cases he

/-- The dataset-wide running extents maintained by `_gather_index_maps`
(`multipagetiff_v2.py:92-103`), with the initial values coming from
`__init__`/`_set_mm_meta`. -/
structure Extents where
  positions : Nat
  frames : Nat
  channels : Nat
  slices : Nat
deriving DecidableEq

/-- The four `if coord[i] > ...` updates of `_gather_index_maps`
(`multipagetiff_v2.py:92-103`), transcribed exactly: note that the last
branch compares `coord[3]` (slice) but assigns `coord[2]` (channel), as the
source does at line 103. -/
def updateExtents (e : Extents) (pg : PageMeta) : Extents :=
  let e1 := if pg.position > e.positions then { e with positions := pg.position } else e
  let e2 := if pg.frame > e1.frames then { e1 with frames := pg.frame } else e1
  let e3 := if pg.channel > e2.channels then { e2 with channels := pg.channel } else e2
  if pg.slice > e3.slices then { e3 with slices := pg.channel } else e3

/-- The extents after the double loop of `_gather_index_maps` over all
files and pages. -/
def gatherExtents (init : Extents) (files : List MMFile) : Extents :=
  files.foldl (fun e f => f.pages.foldl updateExtents e) init

/-- `MicromanagerOmeTiffReader._get_dimensions`
(`multipagetiff_v2.py:267-284`): starting from `t = c = z = 0`, skip
coordinates whose position differs, otherwise keep the running maximum of
`tup[1]`, `tup[2]`, `tup[3]`; the raw maxima are returned. -/
def getDimensions (keys : List Coord) (position : Nat) : Nat × Nat × Nat :=
  keys.foldl
    (fun tcz tup =>
      if position ≠ tup.1 then tcz
      else
        (if tup.2.1 > tcz.1 then tup.2.1 else tcz.1,
         if tup.2.2.1 > tcz.2.1 then tup.2.2.1 else tcz.2.1,
         if tup.2.2.2 > tcz.2.2 then tup.2.2.2 else tcz.2.2))
    (0, 0, 0)

/-- A two-file dataset used to exercise the index: positions 0 and 1,
channels 0-1, slices 0-2 at position 0 and 0-1 at position 1. -/
def demoFiles : List MMFile :=
  [⟨"a.ome.tif",
    [⟨0, 0, 0, 0, 100⟩, ⟨0, 0, 0, 1, 200⟩, ⟨0, 0, 0, 2, 300⟩, ⟨0, 0, 1, 0, 400⟩]⟩,
   ⟨"b.ome.tif",
    [⟨1, 0, 0, 0, 50⟩, ⟨1, 0, 0, 1, 150⟩]⟩]

/-- C1: the index built by `_gather_index_maps` answers lookups exactly:
a coordinate recorded by no page of any file looks up to a failure
(the key-miss that `_get_image`'s dictionary access raises, the spec's
`CoordinateNotFoundError`); a coordinate recorded by some page looks up
successfully; and the returned entry is precisely the `(file, page, offset)`
triple stored for that coordinate (the last write, matching Python dict
overwrite semantics). -/
theorem lookup_returns_inserted (files : List MMFile) (c : Coord) :
    ((∀ ce ∈ allEntries files, ce.1 ≠ c) → lookupCoord files c = none)
    ∧ ((∃ ce ∈ allEntries files, ce.1 = c) → ∃ e, lookupCoord files c = some e)
    ∧ (∀ e, lastMatchEntry (allEntries files) c = some e →
        lookupCoord files c = some e) := by
  refine ⟨?_, ?_, ?_⟩
  · intro h
    rw [lookupCoord, buildCoordMap, foldl_insertEntry,
      lastMatchEntry_eq_none (allEntries files) c h]
  · intro h
    rcases lastMatchEntry_isSome (allEntries files) c h with ⟨e, he⟩
    refine ⟨e, ?_⟩
    rw [lookupCoord, buildCoordMap, foldl_insertEntry, he]
  · intro e he
    rw [lookupCoord, buildCoordMap, foldl_insertEntry, he]

/-- C1 witness: on the concrete two-file dataset, the absent coordinate
`(5,0,0,0)` fails to look up, and the recorded coordinate `(1,0,0,0)` looks
up to the entry `(b.ome.tif, page 0, offset 50)` stored for it. -/
theorem lookup_returns_inserted_witness :
    lookupCoord demoFiles (5, 0, 0, 0) = none
    ∧ lookupCoord demoFiles (1, 0, 0, 0) = some ⟨"b.ome.tif", 0, 50⟩ :=
  ⟨(lookup_returns_inserted demoFiles (5, 0, 0, 0)).1 (by decide),
   (lookup_returns_inserted demoFiles (1, 0, 0, 0)).2.2 ⟨"b.ome.tif", 0, 50⟩ (by decide)⟩

/-- The `coord_map` key set of `demoFiles` in insertion order (no duplicate
coordinates occur, so this is exactly `self.coord_map.keys()`). -/
def demoKeys : List Coord :=
  [(0, 0, 0, 0), (0, 0, 0, 1), (0, 0, 0, 2), (0, 0, 1, 0),
   (1, 0, 0, 0), (1, 0, 0, 1)]

/-- C2: evaluating `_get_dimensions` at the failing input.  Position 0 has
slices `{0,1,2}` and channels `{0,1}`; position 1 has slices `{0,1}`.  The
source returns the raw maxima `(t, c, z) = (0, 1, 2)` for position 0 and
`(0, 0, 1)` for position 1, i.e. slice-extents 2 and 1 — not the claimed
`maximum + 1` (slice-extents 3 and 2).  `_create_position_array` then sizes
the per-position array and its `range` loops from these values, so the
plane at the maximum coordinate, although present in `coord_map`, is never
read. -/
theorem get_dimensions_eval :
    getDimensions demoKeys 0 = (0, 1, 2)
    ∧ getDimensions demoKeys 1 = (0, 0, 1)
    ∧ (0, 1, 2) ≠ ((0 : Nat), (1 : Nat), (3 : Nat)) := by
  decide

/-- C7: evaluating `_gather_index_maps`'s extent accumulation at the failing
input.  A single file with one page at coordinate
`(position 0, frame 0, channel 2, slice 7)` yields `slices = 2`: line 103
compares `coord[3] > self.slices` but assigns `coord[2]`, the channel
coordinate, so the slice extent tracks the channel value (7 would be the
running maximum of the slice coordinate itself). -/
theorem gather_extents_eval :
    gatherExtents ⟨0, 0, 0, 0⟩ [⟨"f1.ome.tif", [⟨0, 0, 2, 7, 0⟩]⟩]
      = ⟨0, 0, 2, 2⟩
    ∧ (2 : Nat) ≠ 7 := by
  decide

/-- Axis metadata as used by `Position._find_axis`: only the `type` field
(`"time"`/`"channel"`/`"space"`) and the name matter here
(`ngff.py:79-86`, `ngff.py:562-566`). -/
structure AxisMeta where
  name : String
  type : String
deriving DecidableEq

/-- `Position._find_axis` (`ngff.py:562-566`): the index of the first axis
whose `type` matches, else `None`. -/
def findAxis (axes : List AxisMeta) (axisType : String) : Option Nat :=
  axes.findIdx? (fun a => a.type == axisType)

/-- `_pad_shape` (`ngff.py:37-40`): left-pad a shape tuple with singleton
dimensions up to `target` length (no-op when already long enough — Python's
negative repeat and Nat truncated subtraction agree). -/
def padShape (shape : List Nat) (target : Nat) : List Nat :=
  List.replicate (target - shape.length) 1 ++ shape

/-- The Python exceptions raised by `Position.append_channel`
(`ngff.py:568-605`): `ValueError` for a duplicate channel name, `KeyError`
for a missing channel axis, `IndexError` when the channel axis is past an
array's rank, and `AttributeError` when `self.metadata` was never set. -/
inductive PyErr
  | valueError
  | keyError
  | indexError
  | attributeError
deriving DecidableEq

/-- The observable state of one `Position` node for `append_channel`: its
channel-name list, its axes, its image arrays (name and shape), and the
OMERO channel labels of its metadata document (`none` when the `metadata`
attribute does not exist yet). -/
structure PositionState where
  channelNames : List String
  axes : List AxisMeta
  images : List (String × List Nat)
  omeroChannels : Option (List String)
deriving DecidableEq

/-- The per-array shape update of `append_channel` (`ngff.py:590-599`):
grow `shape[ch_ax]` by one when `ch_ax < len(shape)`, left-pad by one
singleton axis when `ch_ax == len(shape)`, otherwise the `IndexError`
branch (`none`). -/
def resizeForChannel (chAx : Nat) (shape : List Nat) : Option (List Nat) :=
  if chAx < shape.length then some (shape.set chAx (shape.getD chAx 0 + 1))
  else if chAx = shape.length then some (padShape shape (shape.length + 1))
  else none

/-- The `for _, img in self.images()` loop of `append_channel`
(`ngff.py:589-600`), resizing arrays one at a time; an error carries the
arrays as they stand when `IndexError` is raised (earlier arrays already
resized). -/
def resizeImagesLoop (chAx : Nat) (done : List (String × List Nat)) :
    List (String × List Nat) → Except (List (String × List Nat)) (List (String × List Nat))
  | [] => .ok done
  | img :: rest =>
    match resizeForChannel chAx img.2 with
    | some shape2 => resizeImagesLoop chAx (done ++ [(img.1, shape2)]) rest
    | none => .error (done ++ img :: rest)

/-- `Position.append_channel` (`ngff.py:568-605`) as a state transformer.
An exception (`.error`) carries the node state at the moment of the raise.
The final step models `if "omero" in self.metadata.dict().keys()`: the
metadata document, when present, always carries an `omero` block, and its
channel list is extended and flushed; a missing `metadata` attribute makes
that access raise `AttributeError`. -/
def appendChannel (s : PositionState) (chanName : String) (resizeArrays : Bool) :
    Except (PyErr × PositionState) PositionState :=
  if chanName ∈ s.channelNames then .error (.valueError, s)
  else
    let s1 : PositionState := { s with channelNames := s.channelNames ++ [chanName] }
    let resized : Except (PyErr × PositionState) PositionState :=
      if resizeArrays then
        match findAxis s1.axes "channel" with
        | none => .error (.keyError, s1)
        | some chAx =>
          match resizeImagesLoop chAx [] s1.images with
          | .ok imgs => .ok { s1 with images := imgs }
          | .error imgs => .error (.indexError, { s1 with images := imgs })
      else .ok s1
    match resized with
    | .error e => .error e
    | .ok s2 =>
      match s2.omeroChannels with
      | none => .error (.attributeError, s2)
      | some chans => .ok { s2 with omeroChannels := some (chans ++ [chanName]) }

lemma padShape_succ (shape : List Nat) : padShape shape (shape.length + 1) = 1 :: shape := by
  have h : shape.length + 1 - shape.length = 1 := by omega
  simp [padShape, h]

lemma resizeForChannel_le (chAx : Nat) (shape : List Nat) (h : chAx ≤ shape.length) :
    resizeForChannel chAx shape =
      some (if chAx < shape.length then shape.set chAx (shape.getD chAx 0 + 1)
            else 1 :: shape) := by
  rw [resizeForChannel]
  by_cases hlt : chAx < shape.length
  · simp [hlt]
  · have heq : chAx = shape.length := by omega
    simp [hlt, heq, padShape_succ]

lemma resizeForChannel_gt (chAx : Nat) (shape : List Nat) (h : shape.length < chAx) :
    resizeForChannel chAx shape = none := by
  have h1 : ¬ chAx < shape.length := by omega
  have h2 : ¬ chAx = shape.length := by omega
  rw [resizeForChannel, if_neg h1, if_neg h2]

lemma resizeImagesLoop_ok (chAx : Nat) (todo : List (String × List Nat)) :
    ∀ done, (∀ img ∈ todo, chAx ≤ img.2.length) →
      resizeImagesLoop chAx done todo =
        .ok (done ++ todo.map (fun img =>
          (img.1, if chAx < img.2.length
                  then img.2.set chAx (img.2.getD chAx 0 + 1)
                  else 1 :: img.2))) := by
  induction todo with
  | nil => intro done _; simp [resizeImagesLoop]
  | cons a rest ih =>
    intro done h
    have ha : chAx ≤ a.2.length := h a (by simp)
    rw [resizeImagesLoop, resizeForChannel_le chAx a.2 ha]
    dsimp only
    rw [ih (done ++ [(a.1, if chAx < a.2.length
          then a.2.set chAx (a.2.getD chAx 0 + 1) else 1 :: a.2)])
        (fun img hm => h img (List.mem_cons_of_mem a hm))]
    simp

lemma resizeImagesLoop_err (chAx : Nat) (todo : List (String × List Nat)) :
    ∀ done, (∃ img ∈ todo, img.2.length < chAx) →
      ∃ imgs, resizeImagesLoop chAx done todo = .error imgs := by
  induction todo with
  | nil => intro done h; simp at h
  | cons a rest ih =>
    intro done h
    by_cases hgt : a.2.length < chAx
    · exact ⟨done ++ a :: rest, by rw [resizeImagesLoop, resizeForChannel_gt chAx a.2 hgt]⟩
    · have hrest : ∃ img ∈ rest, img.2.length < chAx := by
        rcases h with ⟨img, hmem, hlen⟩
        rcases List.mem_cons.mp hmem with rfl | hm
        · exact absurd hlen hgt
        · exact ⟨img, hm, hlen⟩
      have ha : chAx ≤ a.2.length := by omega
      rw [resizeImagesLoop, resizeForChannel_le chAx a.2 ha]
      exact ih _ hrest

/-- C10: calling `append_channel` with a channel name already present in
the channel list raises `ValueError` before any mutation: the error state
is the input state itself, so the channel-name list, every image array's
shape, and the metadata document are unchanged. -/
theorem append_channel_duplicate_no_mutation (s : PositionState) (chanName : String)
    (resizeArrays : Bool) (h : chanName ∈ s.channelNames) :
    appendChannel s chanName resizeArrays = .error (.valueError, s) := by
  rw [appendChannel, if_pos h]

/-- The default TCZYX axis list (`NGFFNode._DEFAULT_AXES`, `ngff.py:79-86`),
whose channel axis sits at index 1. -/
def tczyxAxes : List AxisMeta :=
  [⟨"T", "time"⟩, ⟨"C", "channel"⟩, ⟨"Z", "space"⟩, ⟨"Y", "space"⟩, ⟨"X", "space"⟩]

/-- A position with three channels and two image arrays of shapes
`(2,3,4,5,6)` and `(3,4,5,6)`, the configuration named by the claim about
`append_channel`. -/
def demoPos : PositionState :=
  { channelNames := ["a", "b", "c"]
    axes := tczyxAxes
    images := [("0", [2, 3, 4, 5, 6]), ("1", [3, 4, 5, 6])]
    omeroChannels := some ["a", "b", "c"] }

/-- A position whose channel list already contains the name `"GFP"`. -/
def dupPos : PositionState :=
  { channelNames := ["GFP", "RFP"]
    axes := tczyxAxes
    images := [("0", [2, 2, 4, 5, 6])]
    omeroChannels := some ["GFP", "RFP"] }

/-- C10 witness: on a concrete position already containing `"GFP"`,
`append_channel "GFP"` errors with `ValueError` and the carried state is
the untouched input state. -/
theorem append_channel_duplicate_no_mutation_witness :
    "GFP" ∈ dupPos.channelNames
    ∧ appendChannel dupPos "GFP" true = .error (.valueError, dupPos) :=
  ⟨by decide, append_channel_duplicate_no_mutation dupPos "GFP" true (by decide)⟩

/-- C3 counterexample: on a position with arrays of shapes `(2,3,4,5,6)`
and `(3,4,5,6)` and the declared channel axis at index 1, the source grows
axis 1 of *both* arrays, yielding `(2,4,4,5,6)` and `(3,5,5,6)` — not the
`(4,4,5,6)` the claim states for the second array (that would grow axis 0). -/
theorem append_channel_claim_counterexample :
    appendChannel demoPos "d" true =
      .ok { channelNames := ["a", "b", "c", "d"]
            axes := tczyxAxes
            images := [("0", [2, 4, 4, 5, 6]), ("1", [3, 5, 5, 6])]
            omeroChannels := some ["a", "b", "c", "d"] }
    ∧ ([("0", [2, 4, 4, 5, 6]), ("1", [3, 5, 5, 6])] : List (String × List Nat))
      ≠ [("0", [2, 4, 4, 5, 6]), ("1", [4, 4, 5, 6])] :=
  ⟨rfl, by decide⟩

/-- C3 (amended): `append_channel` with a fresh name, a declared channel
axis at index `k` and an existing metadata document appends the name to the
channel list (length grows by exactly one), and for every image array:
if `k` is within the array's rank it grows *that declared axis* by one slot
(so a rank-4 array `(3,4,5,6)` with `k = 1` becomes `(3,5,5,6)`, not
`(4,4,5,6)`); if `k` equals the rank it left-pads the shape with one
singleton axis; and if some array's rank is below `k` the call raises
`IndexError`, with the name already appended and the metadata document not
yet extended. -/
theorem append_channel_shapes (s : PositionState) (chanName : String) (k : Nat)
    (oc : List String)
    (h1 : chanName ∉ s.channelNames)
    (h2 : findAxis s.axes "channel" = some k)
    (h3 : s.omeroChannels = some oc) :
    ((∀ img ∈ s.images, k ≤ img.2.length) →
      appendChannel s chanName true =
        .ok { channelNames := s.channelNames ++ [chanName]
              axes := s.axes
              images := s.images.map (fun img =>
                (img.1, if k < img.2.length
                        then img.2.set k (img.2.getD k 0 + 1)
                        else 1 :: img.2))
              omeroChannels := some (oc ++ [chanName]) })
    ∧ ((∃ img ∈ s.images, img.2.length < k) →
      ∃ imgs, appendChannel s chanName true =
        .error (.indexError,
          { channelNames := s.channelNames ++ [chanName]
            axes := s.axes
            images := imgs
            omeroChannels := some oc })) := by
  constructor
  · intro hall
    rw [appendChannel, if_neg h1]
    simp [h2, resizeImagesLoop_ok k s.images [] hall, h3]
  · intro hex
    rcases resizeImagesLoop_err k s.images [] hex with ⟨imgs, himgs⟩
    refine ⟨imgs, ?_⟩
    rw [appendChannel, if_neg h1]
    simp [h2, himgs, h3]

/-- C3 witness: instantiating the amended theorem on the claim's concrete
configuration yields shapes `(2,4,4,5,6)` and `(3,5,5,6)` and a four-name
channel list. -/
theorem append_channel_shapes_witness :
    "d" ∉ demoPos.channelNames
    ∧ findAxis demoPos.axes "channel" = some 1
    ∧ demoPos.omeroChannels = some ["a", "b", "c"]
    ∧ (∀ img ∈ demoPos.images, 1 ≤ img.2.length)
    ∧ appendChannel demoPos "d" true =
        .ok { channelNames := ["a", "b", "c", "d"]
              axes := tczyxAxes
              images := [("0", [2, 4, 4, 5, 6]), ("1", [3, 5, 5, 6])]
              omeroChannels := some ["a", "b", "c", "d"] } := by
  refine ⟨by decide, by rfl, by rfl, by decide, ?_⟩
  have h := (append_channel_shapes demoPos "d" 1 ["a", "b", "c"]
    (by decide) (by rfl) (by rfl)).1 (by decide)
  exact h

/-- One record of `plate.wells` in the persisted plate metadata: the
`WellIndexMeta` built by `create_well` (`ngff.py:917-921`). -/
structure WellIndexMeta where
  rowName : String
  colName : String
  rowIndex : Nat
  colIndex : Nat
deriving DecidableEq

/-- The plate-level state touched by `create_well`: the in-memory
`_rows`/`_cols` dictionaries (insertion-ordered name-to-index), the
`rows`/`columns`/`wells` lists of the metadata document, and whether the
`metadata` attribute exists yet (`ngff.py:812-813`, `ngff.py:864-878`). -/
structure PlateState where
  rowsDict : List (String × Nat)
  colsDict : List (String × Nat)
  metaRows : List String
  metaCols : List String
  metaWells : List WellIndexMeta
  hasMeta : Bool
deriving DecidableEq

/-- The fallback branch of `Plate._auto_idx` (`ngff.py:861-862`):
`max(used) + 1 if used else 0` over the dict's values. -/
def nextAutoIdx (known : List (String × Nat)) : Nat :=
  if known.isEmpty then 0 else (known.map (fun p => p.2)).foldl max 0 + 1

/-- `Plate._auto_idx` (`ngff.py:857-862`): `if idx := known.get(name)` is a
truthiness test, so both a missing key (`None`) and a stored index `0` fall
through to the fallback. -/
def autoIdx (got : Option Nat) (known : List (String × Nat)) : Nat :=
  match got with
  | some idx => if idx = 0 then nextAutoIdx known else idx
  | none => nextAutoIdx known

/-- The `known.get(name)` lookup as `create_well` actually performs it
(`ngff.py:914-915`): `create_well` passes its numeric `row_index` /
`col_index` argument (an `int` or `None`) where `_auto_idx` expects the
name, and `self._rows`/`self._cols` are keyed by row/column name strings,
so the dictionary lookup never finds the key and always yields `None`. -/
def getIndexArgKey (_indexArg : Option Nat) (_known : List (String × Nat)) : Option Nat :=
  none

/-- `Plate.create_well` (`ngff.py:880-944`), restricted to its effect on
the index registries and the metadata document (group creation and the
final flush are structural I/O on the collaborator store).  Names arrive
already normalized.  Row branch: a new row records `(row_name, row_index)`
in `_rows` and either builds the first metadata document (which already
lists the first column) or appends the row and well records; an existing
row only appends the well record.  Column branch: the column is appended
to `metadata.columns` and `_cols` only when its name is not yet in
`metadata.columns` — note that the very first column, inserted via
`_build_meta`, therefore never reaches `_cols`. -/
def createWell (s : PlateState) (rowName colName : String)
    (rowIndexArg colIndexArg : Option Nat) : PlateState :=
  let rowIndex := autoIdx (getIndexArgKey rowIndexArg s.rowsDict) s.rowsDict
  let colIndex := autoIdx (getIndexArgKey colIndexArg s.colsDict) s.colsDict
  let wellMeta : WellIndexMeta := ⟨rowName, colName, rowIndex, colIndex⟩
  let s2 :=
    if (s.rowsDict.map (fun p => p.1)).contains rowName then
      { s with metaWells := s.metaWells ++ [wellMeta] }
    else
      if s.hasMeta then
        { s with rowsDict := s.rowsDict ++ [(rowName, rowIndex)],
                 metaRows := s.metaRows ++ [rowName],
                 metaWells := s.metaWells ++ [wellMeta] }
      else
        { s with rowsDict := s.rowsDict ++ [(rowName, rowIndex)],
                 hasMeta := true,
                 metaRows := [rowName],
                 metaCols := [colName],
                 metaWells := [wellMeta] }
  if s2.metaCols.contains colName then s2
  else { s2 with metaCols := s2.metaCols ++ [colName],
                 colsDict := s2.colsDict ++ [(colName, colIndex)] }

/-- The empty plate as set up by `Plate.__init__` when creating a new
store (`ngff.py:812-813`, no metadata document yet). -/
def emptyPlate : PlateState := ⟨[], [], [], [], [], false⟩

/-- Wells `(A,1)`, `(A,2)`, `(B,1)` created in that order with
auto-assigned indices. -/
def plateAfterThreeWells : PlateState :=
  createWell (createWell (createWell emptyPlate "A" "1" none none)
    "A" "2" none none) "B" "1" none none

/-- C4: evaluating `create_well` at the failing input.  Creating wells
`(A,1)`, `(A,2)`, `(B,1)` with auto-assigned indices persists the well
records `(A/1, row 0, col 0)`, `(A/2, row 1, col 0)`, `(B/1, row 1, col 1)`
— not the claimed `{A:0, B:1}` / `{1:0, 2:1}` assignment
(`(A/1,0,0)`, `(A/2,0,1)`, `(B/1,1,0)`): `create_well` hands `_auto_idx`
the numeric index argument instead of the name, `_auto_idx` treats a stored
index `0` as missing, and the first column never enters `_cols`. -/
theorem create_well_eval :
    plateAfterThreeWells.metaWells =
      [⟨"A", "1", 0, 0⟩, ⟨"A", "2", 1, 0⟩, ⟨"B", "1", 1, 1⟩]
    ∧ ([⟨"A", "1", 0, 0⟩, ⟨"A", "2", 1, 0⟩, ⟨"B", "1", 1, 1⟩] : List WellIndexMeta)
      ≠ [⟨"A", "1", 0, 0⟩, ⟨"A", "2", 0, 1⟩, ⟨"B", "1", 1, 0⟩] := by
  decide

/-- The persistence modes accepted by `open_ome_zarr`
(`ngff.py:1033`): `r`, `r+`, `a`, `w`, `w-`. -/
inductive PersistenceMode
  | r | rp | a | w | wm
deriving DecidableEq, Fintype

/-- What is on disk at the target path: nothing, a non-directory entry, or
a directory (the only form a Zarr `DirectoryStore` dataset takes). -/
inductive PathState
  | absent | plainFile | directory
deriving DecidableEq, Fintype

/-- `os.path.exists(store_path)` (`ngff.py:1092,1097,1100`). -/
def pathExists : PathState → Bool
  | .absent => false
  | _ => true

/-- `os.path.isdir(store_path)` as checked by `_open_store` (`ngff.py:49`). -/
def pathIsDir : PathState → Bool
  | .directory => true
  | _ => false

/-- The errors raised while resolving mode and layout in `open_ome_zarr`
and `_open_store`. -/
inductive OpenErr
  | alreadyExists
  | notFound
  | invalidMode
  | layoutNotSpecified
  | ambiguousLayout
  | layoutMismatch
  | unknownLayout
deriving DecidableEq

/-- Mode resolution of `open_ome_zarr` (`ngff.py:1091-1092`):
`mode = ("w-", "r+")[int(os.path.exists(store_path))]` for `"a"`. -/
def resolveMode (mode : PersistenceMode) (ps : PathState) : PersistenceMode :=
  match mode with
  | .a => if pathExists ps then .rp else .wm
  | m => m

/-- The persistence-mode stage of `open_ome_zarr` combined with the
existence check of `_open_store` (`ngff.py:1091-1104`, `ngff.py:43-52`):
returns the resolved mode and the `parse_meta` flag, or the raised error.
The `"w-"` existence check fires before any store handle is opened, so its
error leaves an existing store untouched. -/
def openModeCheck (mode : PersistenceMode) (ps : PathState) :
    Except OpenErr (PersistenceMode × Bool) :=
  match resolveMode mode ps with
  | .r => if pathIsDir ps then .ok (.r, true) else .error .notFound
  | .rp => if pathIsDir ps then .ok (.rp, true) else .error .notFound
  | .wm => if pathExists ps then .error .alreadyExists else .ok (.wm, false)
  | .w => .ok (.w, false)
  | .a => .error .invalidMode

/-- C5: persistence-mode resolution.  Mode `a` resolves to exclusive
creation (`w-`) exactly when the path does not exist and to
read-write-existing (`r+`) otherwise; `w-` on any existing path errors
(`FileExistsError`) during resolution, before a store handle is opened, and
succeeds only on an absent path; and the read-oriented modes `r`/`r+` on a
non-existent path error with the not-found error from `_open_store`. -/
theorem mode_resolution_spec :
    (∀ ps, resolveMode .a ps = (if pathExists ps then .rp else .wm))
    ∧ (∀ ps, openModeCheck .wm ps =
        (if pathExists ps then .error .alreadyExists else .ok (.wm, false)))
    ∧ openModeCheck .r .absent = .error .notFound
    ∧ openModeCheck .rp .absent = .error .notFound := by
  refine ⟨fun ps => ?_, fun ps => ?_, rfl, rfl⟩ <;> cases ps <;> rfl

/-- The `layout` argument of `open_ome_zarr` (`ngff.py:1032`). -/
inductive StoreLayout
  | auto | fov | hcs
deriving DecidableEq

/-- The node class `open_ome_zarr` instantiates (`ngff.py:1123-1133`). -/
inductive NodeKind
  | position | plate
deriving DecidableEq

/-- Layout resolution of `open_ome_zarr` (`ngff.py:1105-1132`):
`meta_keys` is the root attribute key list when `parse_meta` is set and
empty otherwise; `"auto"` picks `hcs` on a `plate` key, else `fov` on a
`multiscales` key, else raises, and is rejected outright when the store is
being created (`parse_meta` unset); an explicit layout is then checked
against the keys actually present. -/
def resolveLayout (layout : StoreLayout) (parseMeta : Bool) (attrKeys : List String) :
    Except OpenErr NodeKind :=
  let metaKeys := if parseMeta then attrKeys else []
  let resolved : Except OpenErr StoreLayout :=
    match layout with
    | .auto =>
      if parseMeta then
        if metaKeys.contains "plate" then .ok .hcs
        else if metaKeys.contains "multiscales" then .ok .fov
        else .error .ambiguousLayout
      else .error .layoutNotSpecified
    | l => .ok l
  match resolved with
  | .error e => .error e
  | .ok .fov =>
    if parseMeta && !(metaKeys.contains "multiscales") then .error .layoutMismatch
    else .ok .position
  | .ok .hcs =>
    if parseMeta && !(metaKeys.contains "plate") then .error .layoutMismatch
    else .ok .plate
  | .ok .auto => .error .unknownLayout

/-- C6: layout resolution.  On an existing store (`parse_meta` set),
`auto` selects the plate layout when the root metadata has a `plate` key,
the single-position layout when it has a `multiscales` key, and fails when
neither is present; on a store being created `auto` always fails; and an
explicit layout that does not match the metadata keys actually present
fails with the layout-mismatch error. -/
theorem layout_resolution_spec :
    (∀ keys, resolveLayout .auto true keys =
      (if keys.contains "plate" then .ok .plate
       else if keys.contains "multiscales" then .ok .position
       else .error .ambiguousLayout))
    ∧ (∀ keys, resolveLayout .auto false keys = .error .layoutNotSpecified)
    ∧ (∀ keys, resolveLayout .fov true keys =
      (if keys.contains "multiscales" then .ok .position else .error .layoutMismatch))
    ∧ (∀ keys, resolveLayout .hcs true keys =
      (if keys.contains "plate" then .ok .plate else .error .layoutMismatch)) := by
  refine ⟨fun keys => ?_, fun keys => rfl, fun keys => ?_, fun keys => ?_⟩
  · by_cases hp : "plate" ∈ keys <;> by_cases hm : "multiscales" ∈ keys <;>
      simp [resolveLayout, hp, hm]
  · by_cases hm : "multiscales" ∈ keys <;> simp [resolveLayout, hm]
  · by_cases hp : "plate" ∈ keys <;> simp [resolveLayout, hp]

/-- A raw metadata document found in `.zattrs`, abstracting the external
schema validator (pydantic): `valid` records whether schema validation
(`ImagesMeta` / `WellGroupMeta` / `PlateMeta`) succeeds on it. -/
structure RawMetaDoc where
  valid : Bool
deriving DecidableEq, Fintype

/-- Outcome of a `_parse_meta` call on opening an existing group: typed
metadata parsed and set; a logged warning (`_warn_invalid_meta`) with the
node left without typed metadata; or a `ValidationError` escaping and
aborting the open. -/
inductive ParseOutcome
  | parsed | warned | raised
deriving DecidableEq

/-- `Position._parse_meta` (`ngff.py:365-380`): when both `multiscales` and
`omero` are present, validation runs inside `try` and a `ValidationError`
is caught and degraded to `_warn_invalid_meta`; when either document is
missing it also only warns.  The error never escapes. -/
def positionParseMeta (multiscales omero : Option RawMetaDoc) : ParseOutcome :=
  match multiscales, omero with
  | some m, some o => if m.valid && o.valid then .parsed else .warned
  | _, _ => .warned

/-- `Well._parse_meta` (`ngff.py:653-657`): a present `well` document is
validated by `WellGroupMeta(**well_group_meta)` with no `try` around it, so
a schema-invalid document raises; only an absent document is degraded to a
warning. -/
def wellParseMeta (well : Option RawMetaDoc) : ParseOutcome :=
  match well with
  | some d => if d.valid then .parsed else .raised
  | none => .warned

/-- `Plate._parse_meta` (`ngff.py:815-823`): a present `plate` document is
validated by `PlateMeta(**plate_meta)` with no `try` around it, so a
schema-invalid document raises; only an absent document is degraded to a
warning. -/
def plateParseMeta (plate : Option RawMetaDoc) : ParseOutcome :=
  match plate with
  | some d => if d.valid then .parsed else .raised
  | none => .warned

/-- C8 counterexample: a present-but-schema-invalid metadata document makes
`Well._parse_meta` and `Plate._parse_meta` raise the validation error
rather than warn, contradicting the claim that every node kind recovers
locally and never raises. -/
theorem parse_meta_raises_counterexample :
    wellParseMeta (some ⟨false⟩) = .raised
    ∧ plateParseMeta (some ⟨false⟩) = .raised
    ∧ ParseOutcome.raised ≠ ParseOutcome.warned := by
  decide

/-- C8 (amended): only `Position._parse_meta` recovers from a failing
schema validation (it warns and continues, never raising); `Well` and
`Plate` warn and continue only when the metadata document is *absent*,
while a present document that fails schema validation raises the
validation error and aborts the open. -/
theorem parse_meta_recovery :
    (∀ m o, positionParseMeta m o ≠ .raised)
    ∧ wellParseMeta none = .warned
    ∧ plateParseMeta none = .warned
    ∧ (∀ d, wellParseMeta (some d) = (if d.valid then .parsed else .raised))
    ∧ (∀ d, plateParseMeta (some d) = (if d.valid then .parsed else .raised)) := by
  decide

/-- A heap of channel-name lists: Python list objects addressed by
reference.  `NGFFNode.__init__` binds the passed list directly as
`self._channel_names` without copying (`ngff.py:97-98`). -/
abbrev ChannelHeap := List (List String)

/-- A node's handle on its `_channel_names` Python list object. -/
structure ChannelListRef where
  ref : Nat
deriving DecidableEq

/-- `NGFFNode._child_attrs` (`ngff.py:147-155`): the child constructor
kwargs contain `channel_names=self._channel_names` — the same list object,
not a copy — and the child's `__init__` binds it directly, so every child
(and hence every sibling) holds the parent's handle. -/
def childChannelNames (parent : ChannelListRef) : ChannelListRef := parent

/-- Reading `node.channel_names` (`ngff.py:130-131`). -/
def readChannelNames (h : ChannelHeap) (n : ChannelListRef) : List String :=
  h.getD n.ref []

/-- `self._channel_names.append(chan_name)` (`ngff.py:581`): in-place
mutation of the referenced list object. -/
def heapAppendChannel (h : ChannelHeap) (n : ChannelListRef) (name : String) : ChannelHeap :=
  h.set n.ref (h.getD n.ref [] ++ [name])

lemma getD_set_self {α : Type} (l : List α) (r : Nat) (v d : α) (h : r < l.length) :
    (l.set r v).getD r d = v := by
  induction l generalizing r with
  | nil => simp at h
  | cons a t ih =>
    cases r with
    | zero => rfl
    | succ n => simpa using ih n (by simpa using h)

/-- C9 counterexample: a parent holding the single channel list `["GFP"]`
hands its list to a child via `_child_attrs`; appending `"RFP"` through the
child makes the parent read `["GFP", "RFP"]` — the parent's list does not
stay unchanged, contradicting the claimed value-copy propagation. -/
theorem channel_names_copy_counterexample :
    readChannelNames (heapAppendChannel [["GFP"]] (childChannelNames ⟨0⟩) "RFP") ⟨0⟩
      = ["GFP", "RFP"]
    ∧ (["GFP", "RFP"] : List String) ≠ ["GFP"] := by
  decide

/-- C9 (amended): `channel_names` is propagated into children by
*reference*, not by value-copy: the child's handle is the parent's handle
(so all siblings share it), and appending a channel through the child
changes the list the parent (and every sibling) reads to the appended
list. -/
theorem channel_names_aliasing (h : ChannelHeap) (parent : ChannelListRef)
    (name : String) (href : parent.ref < h.length) :
    childChannelNames parent = parent
    ∧ readChannelNames (heapAppendChannel h (childChannelNames parent) name) parent
        = readChannelNames h parent ++ [name] := by
  refine ⟨rfl, ?_⟩
  simp only [readChannelNames, heapAppendChannel, childChannelNames]
  exact getD_set_self h parent.ref _ _ href

/-- C9 witness: instantiating the aliasing theorem on a one-list heap. -/
theorem channel_names_aliasing_witness :
    (ChannelListRef.mk 0).ref < ([["GFP"]] : ChannelHeap).length
    ∧ (childChannelNames ⟨0⟩ = ChannelListRef.mk 0
      ∧ readChannelNames (heapAppendChannel [["GFP"]] (childChannelNames ⟨0⟩) "DAPI") ⟨0⟩
          = readChannelNames [["GFP"]] ⟨0⟩ ++ ["DAPI"]) :=
  ⟨by decide, channel_names_aliasing [["GFP"]] ⟨0⟩ "DAPI" (by decide)⟩
